import Mathlib

/-!
Verification of the Raven-Radio Talk Killer core (src/src/App.tsx).

The detection loop samples the frequency spectrum of the playing stream
every 200 ms, scores it for speech-likeness, accumulates consecutive
speech-classified ticks, and switches to the next fallback station when
the accumulation passes a threshold and the cooldown has elapsed.

Numbers are modelled exactly: JavaScript number arithmetic on magnitudes,
scores, settings and accumulated seconds is embedded into `ℚ`, and
millisecond timestamps (`Date.now()`) into `ℤ`.  Byte magnitudes from the
analyser are naturals (0–255).
-/

namespace RavenRadio

/-- `TalkKillerSettings` (App.tsx lines 55–60). -/
structure TalkKillerSettings where
  enabled : Bool
  speechSeconds : ℚ
  sensitivity : ℚ
  cooldownSeconds : ℚ
deriving DecidableEq, Repr

/-- `defaultSettings` (App.tsx lines 64–69): sensitivity 0.6 = 3/5. -/
def defaultSettings : TalkKillerSettings :=
  { enabled := true, speechSeconds := 6, sensitivity := 3/5, cooldownSeconds := 12 }

/-- The mutable state of the detection loop: the tick-interval handle
(`intervalRef`), the `analysisBlocked` React state, the two refs
`speechSecondsRef` / `lastSwitchRef` (App.tsx lines 141–143), the playing
station id (`currentId`), and the per-tick display outputs
(`speechScore`, `speechLabel`). -/
structure DetState where
  intervalActive : Bool
  analysisBlocked : Bool
  speechSecondsAcc : ℚ
  lastSwitch : ℤ
  currentId : String
  speechScore : ℚ
  speechLabel : String
deriving DecidableEq, Repr

/-- Initial component state (App.tsx lines 142–143, 156–158):
`lastSwitchRef = useRef(0)`, `speechSecondsRef = useRef(0)`,
`analysisBlocked = false`, `speechScore = 0`, `speechLabel = 'Music'`;
no interval is running before the detection effect first fires. -/
def initialDetState (currentId : String) : DetState :=
  { intervalActive := false, analysisBlocked := false, speechSecondsAcc := 0,
    lastSwitch := 0, currentId := currentId, speechScore := 0, speechLabel := "Music" }

/-- `nextFallback` (App.tsx lines 452–461).  JavaScript `indexOf` returns
-1 when the element is absent; `List.indexOf` returns the length, so the
absence branch tests `= fallbacks.length` instead of `= -1`. -/
def nextFallback (fallbacks : List String) (currentId : String) : Option String :=
  if fallbacks.length = 0 then
    none
  else
    let currentIndex := fallbacks.indexOf currentId
    if currentIndex = fallbacks.length then fallbacks[0]?
    else fallbacks[(currentIndex + 1) % fallbacks.length]?

/-- `triggerAutoSwitch` (App.tsx lines 580–587), returning the `currentId`
after the call.  The source guard is `if (!next || next === currentId)
return;` — a JavaScript string is falsy exactly when empty, hence the
`next = ""` disjunct. -/
def triggerAutoSwitch (fallbacks : List String) (currentId : String) : String :=
  match nextFallback fallbacks currentId with
  | none => currentId
  | some next => if next = "" ∨ next = currentId then currentId else next

/-- `dataArray.slice(startIndex, endIndex).reduce((acc, value) => acc + value, 0)`
(App.tsx lines 655–657): the sum of the magnitudes at indices in the
half-open range `[startIndex, endIndex)`, both bounds clamped to the
array length as `slice` does. -/
def sliceSum (data : List ℕ) (startIndex endIndex : ℕ) : ℕ :=
  ((data.take endIndex).drop startIndex).sum

/-- The speech score of one snapshot (App.tsx lines 654–658):
`total === 0 ? 0 : mid / total`. -/
def scoreOf (data : List ℕ) (startIndex endIndex : ℕ) : ℚ :=
  if data.sum = 0 then 0
  else (sliceSum data startIndex endIndex : ℚ) / (data.sum : ℚ)

/-- `startIndex` (App.tsx line 632):
`Math.floor((300 / nyquist) * dataArray.length)` with
`nyquist = sampleRate / 2`. -/
def startIndexOf (sampleRate : ℚ) (binCount : ℕ) : ℕ :=
  (Int.floor (300 / (sampleRate / 2) * (binCount : ℚ))).toNat

/-- `endIndex` (App.tsx lines 633–636):
`Math.min(dataArray.length - 1, Math.floor((3000 / nyquist) * dataArray.length))`. -/
def endIndexOf (sampleRate : ℚ) (binCount : ℕ) : ℕ :=
  min (binCount - 1) (Int.floor (3000 / (sampleRate / 2) * (binCount : ℚ))).toNat

/-- The hysteresis update (App.tsx lines 663–668): `step = 0.2`;
on a speech tick `speechSecondsRef.current += step`, otherwise it is
set to zero. -/
def hysteresisNext (sensitivity score acc : ℚ) : ℚ :=
  if sensitivity ≤ score then acc + 1/5 else 0

/-- One run of the interval callback (App.tsx lines 638–678).
`readResult = none` models `getByteFrequencyData` throwing
(AnalysisReadFailure): the catch sets `analysisBlocked` and clears the
interval before any scoring happens.  Otherwise the tick scores the
snapshot, updates the label and the accumulator, and — when the
accumulator has reached `speechSeconds` and the cooldown has elapsed —
records the switch time, resets the accumulator and invokes
`triggerAutoSwitch`.  The returned `Bool` is true exactly when
`triggerAutoSwitch` was invoked (a switch request was fired). -/
def tick (settings : TalkKillerSettings) (fallbacks : List String)
    (startIndex endIndex : ℕ) (readResult : Option (List ℕ)) (now : ℤ)
    (st : DetState) : DetState × Bool :=
  match readResult with
  | none =>
      ({ st with analysisBlocked := true, intervalActive := false }, false)
  | some data =>
      let score := scoreOf data startIndex endIndex
      let isSpeech := settings.sensitivity ≤ score
      let acc := hysteresisNext settings.sensitivity score st.speechSecondsAcc
      let st1 : DetState :=
        { st with speechScore := score,
                  speechLabel := if isSpeech then "Speech-ish" else "Music",
                  speechSecondsAcc := acc }
      if settings.speechSeconds ≤ acc ∧
          settings.cooldownSeconds * 1000 ≤ (now : ℚ) - (st.lastSwitch : ℚ) then
        ({ st1 with lastSwitch := now, speechSecondsAcc := 0,
                    currentId := triggerAutoSwitch fallbacks st.currentId }, true)
      else
        (st1, false)

/-- The dependency array of the detection effect (App.tsx line 688):
`[settings.enabled, settings.sensitivity, settings.speechSeconds,
settings.cooldownSeconds, isPlaying, currentId, fallbacks]`. -/
structure DetectionDeps where
  settings : TalkKillerSettings
  isPlaying : Bool
  currentId : String
  fallbacks : List String
deriving DecidableEq, Repr

/-- The effect cleanup (App.tsx lines 682–687): clear the tick interval.
Nothing else is touched — in particular `speechSecondsRef` and
`lastSwitchRef` persist across effect re-runs. -/
def detectionCleanup (st : DetState) : DetState :=
  { st with intervalActive := false }

/-- The detection effect body (App.tsx lines 589–680).  When the feature
is off or the stream paused, it only clears the interval.  Otherwise it
attempts `setupAudioGraph()`: a failure (AnalysisSetupFailure) sets
`analysisBlocked` and returns without starting the interval; success
starts the interval.  The returned `Bool` records whether a setup attempt
was made. -/
def detectionEffectBody (deps : DetectionDeps) (setupFails : Bool)
    (st : DetState) : DetState × Bool :=
  if !deps.settings.enabled || !deps.isPlaying then
    ({ st with intervalActive := false }, false)
  else if setupFails then
    ({ st with analysisBlocked := true }, true)
  else
    ({ st with intervalActive := true }, true)

/-- A loop restart: React runs the previous cleanup, then the effect body
with the new dependency values. -/
def detectionRestart (deps : DetectionDeps) (setupFails : Bool)
    (st : DetState) : DetState × Bool :=
  detectionEffectBody deps setupFails (detectionCleanup st)

/-- React re-runs the detection effect exactly when some entry of its
dependency array changed; when every dependency is unchanged the effect
does not run at all and the state is untouched. -/
def sessionStep (prevDeps newDeps : DetectionDeps) (setupFails : Bool)
    (st : DetState) : DetState × Bool :=
  if prevDeps = newDeps then (st, false)
  else detectionRestart newDeps setupFails st

/-- Fold a sequence of tick inputs (frequency-read result and `Date.now()`
value) through `tick`, recording whether any tick in the run fired a
switch request. -/
def runTicks (settings : TalkKillerSettings) (fallbacks : List String)
    (a b : ℕ) (inputs : List (Option (List ℕ) × ℤ)) (st : DetState) :
    DetState × Bool :=
  inputs.foldl (fun acc p =>
    ((tick settings fallbacks a b p.1 p.2 acc.1).1,
      acc.2 || (tick settings fallbacks a b p.1 p.2 acc.1).2)) (st, false)

/-! ### Helper lemmas -/

lemma drop_take_sum (l : List ℕ) : ∀ s n : ℕ,
    ((l.drop s).take n).sum = ∑ i in Finset.range n, l.getD (s + i) 0 := by
  induction l with
  | nil =>
      intro s n
      simp
  | cons a t ih =>
      intro s n
      cases s with
      | zero =>
          cases n with
          | zero => simp
          | succ n =>
              simp only [List.drop_zero, List.take_succ_cons, List.sum_cons]
              rw [Finset.sum_range_succ']
              have ht := ih 0 n
              simp only [List.drop_zero] at ht
              simp [ht, Nat.add_comm]
      | succ s =>
          simp only [List.drop_succ_cons]
          rw [ih s n]
          refine Finset.sum_congr rfl fun i _ => ?_
          rw [show s + 1 + i = (s + i) + 1 by omega, List.getD_cons_succ]

lemma sliceSum_eq_sum_Ico (l : List ℕ) (s e : ℕ) :
    sliceSum l s e = ∑ i in Finset.Ico s e, l.getD i 0 := by
  rw [sliceSum, Finset.sum_Ico_eq_sum_range, ← drop_take_sum l s (e - s),
    List.drop_take e s l]

lemma sliceSum_le_sum (l : List ℕ) (s e : ℕ) : sliceSum l s e ≤ l.sum := by
  have h1 : ((l.take e).drop s).sum ≤ (l.take e).sum := by
    conv_rhs => rw [← List.take_append_drop s (l.take e)]
    rw [List.sum_append]
    omega
  have h2 : (l.take e).sum ≤ l.sum := by
    conv_rhs => rw [← List.take_append_drop e l]
    rw [List.sum_append]
    omega
  exact le_trans h1 h2

lemma tick_reset_on_nonspeech (settings : TalkKillerSettings)
    (fallbacks : List String) (a b : ℕ) (data : List ℕ) (now : ℤ)
    (st : DetState) (hlt : scoreOf data a b < settings.sensitivity) :
    (tick settings fallbacks a b (some data) now st).1.speechSecondsAcc = 0 := by
  simp only [tick]
  split
  · simp
  · simp [hysteresisNext, if_neg (not_le.mpr hlt)]

lemma nextFallback_mem (fallbacks : List String) (cid x : String)
    (h : nextFallback fallbacks cid = some x) : x ∈ fallbacks := by
  simp only [nextFallback] at h
  split at h
  · exact absurd h (by simp)
  · split at h
    · exact List.getElem?_mem h
    · exact List.getElem?_mem h

lemma triggerAutoSwitch_eq_self (fallbacks : List String) (cid : String)
    (h : ∀ x ∈ fallbacks, x = cid) : triggerAutoSwitch fallbacks cid = cid := by
  unfold triggerAutoSwitch
  cases hnf : nextFallback fallbacks cid with
  | none => rfl
  | some next =>
      have hx : next = cid := h next (nextFallback_mem fallbacks cid next hnf)
      subst hx
      exact ite_self _

/-- Claim C3: `nextFallback` returns `none` on an empty list, the first
element when the current id is absent, and the element at
`(indexOf currentId + 1) % length` otherwise; on `["a","b","c"]` it maps
`"b"` to `"c"`, `"c"` to `"a"`, and the absent `"z"` to `"a"`. -/
theorem nextFallback_spec :
    (∀ currentId, nextFallback [] currentId = none) ∧
    (∀ fallbacks currentId, currentId ∉ fallbacks →
        nextFallback fallbacks currentId = fallbacks[0]?) ∧
    (∀ fallbacks currentId, currentId ∈ fallbacks →
        nextFallback fallbacks currentId
          = fallbacks[(fallbacks.indexOf currentId + 1) % fallbacks.length]?) ∧
    nextFallback ["a", "b", "c"] "b" = some "c" ∧
    nextFallback ["a", "b", "c"] "c" = some "a" ∧
    nextFallback ["a", "b", "c"] "z" = some "a" := by
  refine ⟨fun cid => rfl, fun fallbacks cid h => ?_, fun fallbacks cid h => ?_, ?_, ?_, ?_⟩
  · unfold nextFallback
    split
    · rename_i hlen
      rw [List.length_eq_zero.mp hlen]
      rfl
    · rw [if_pos (List.indexOf_eq_length.mpr h)]
  · unfold nextFallback
    have hlt : fallbacks.indexOf cid < fallbacks.length := List.indexOf_lt_length.mpr h
    rw [if_neg (by omega), if_neg (by omega)]
  · rfl
  · rfl
  · rfl

/-- Witness for `nextFallback_spec`: the in-list rotation clause applied
to the concrete list `["a","b"]` with current id `"a"`. -/
theorem nextFallback_spec_witness :
    "a" ∈ ["a", "b"] ∧
    nextFallback ["a", "b"] "a"
      = ["a", "b"][(List.indexOf "a" ["a", "b"] + 1) % List.length ["a", "b"]]? :=
  ⟨by decide, nextFallback_spec.2.2.1 ["a", "b"] "a" (by decide)⟩

/-- Claim C4: the speech score a tick publishes is `mid / total`, where
`startIndex = floor(300 / nyquist * binCount)`,
`endIndex = min(binCount - 1, floor(3000 / nyquist * binCount))` with
`nyquist = sampleRate / 2` (as computed by `startIndexOf` / `endIndexOf`),
`mid` sums the magnitudes over the half-open index range
`[startIndex, endIndex)`, `total` sums all bins, and the score is 0 when
`total = 0`. -/
theorem speech_score_formula
    (settings : TalkKillerSettings) (fallbacks : List String)
    (data : List ℕ) (sampleRate : ℚ) (now : ℤ) (st : DetState) :
    (tick settings fallbacks (startIndexOf sampleRate data.length)
        (endIndexOf sampleRate data.length) (some data) now st).1.speechScore
      = if data.sum = 0 then 0
        else (∑ i in Finset.Ico (startIndexOf sampleRate data.length)
                (endIndexOf sampleRate data.length), (data.getD i 0 : ℚ))
          / (data.sum : ℚ) := by
  have hscore : (tick settings fallbacks (startIndexOf sampleRate data.length)
      (endIndexOf sampleRate data.length) (some data) now st).1.speechScore
      = scoreOf data (startIndexOf sampleRate data.length)
          (endIndexOf sampleRate data.length) := by
    simp only [tick]
    split <;> rfl
  rw [hscore, scoreOf, sliceSum_eq_sum_Ico, Nat.cast_sum]

/-- Claim C8: for every snapshot of byte magnitudes and every sample
rate, the speech score is in `[0, 1]`. -/
theorem speech_score_bounded (data : List ℕ) (sampleRate : ℚ)
    (h : ∀ x ∈ data, x ≤ 255) :
    0 ≤ scoreOf data (startIndexOf sampleRate data.length)
        (endIndexOf sampleRate data.length) ∧
    scoreOf data (startIndexOf sampleRate data.length)
        (endIndexOf sampleRate data.length) ≤ 1 := by
  unfold scoreOf
  split
  · norm_num
  · rename_i htot
    have hpos : 0 < (data.sum : ℚ) := by
      exact_mod_cast Nat.pos_of_ne_zero htot
    constructor
    · positivity
    · rw [div_le_one hpos]
      exact_mod_cast sliceSum_le_sum data _ _

/-- Witness for `speech_score_bounded`: a concrete two-bin snapshot at a
48 kHz sample rate. -/
theorem speech_score_bounded_witness :
    (∀ x ∈ [1, 2], x ≤ 255) ∧
    (0 ≤ scoreOf [1, 2] (startIndexOf 48000 (List.length [1, 2]))
        (endIndexOf 48000 (List.length [1, 2])) ∧
      scoreOf [1, 2] (startIndexOf 48000 (List.length [1, 2]))
        (endIndexOf 48000 (List.length [1, 2])) ≤ 1) :=
  ⟨by decide, speech_score_bounded [1, 2] 48000 (by decide)⟩

/-- Claim C6: when the fallback list is empty or contains only the current
station's id, no tick ever changes `currentId` — rotation yields nothing
or the current station, and `triggerAutoSwitch` treats both as a no-op. -/
theorem tick_no_switch_on_degenerate_fallbacks
    (settings : TalkKillerSettings) (fallbacks : List String) (a b : ℕ)
    (readResult : Option (List ℕ)) (now : ℤ) (st : DetState)
    (h : fallbacks = [] ∨ ∀ x ∈ fallbacks, x = st.currentId) :
    (tick settings fallbacks a b readResult now st).1.currentId = st.currentId := by
  have hall : ∀ x ∈ fallbacks, x = st.currentId := by
    rcases h with h | h
    · subst h; intro x hx; exact absurd hx (List.not_mem_nil x)
    · exact h
  cases readResult with
  | none => rfl
  | some data =>
      simp only [tick]
      split
      · simp [triggerAutoSwitch_eq_self fallbacks st.currentId hall]
      · rfl

/-- Witness for `tick_no_switch_on_degenerate_fallbacks`: a qualifying
tick with `fallbacks = ["a"]` and current station `"a"` leaves the
station unchanged. -/
theorem tick_no_switch_on_degenerate_fallbacks_witness :
    (["a"] = ([] : List String) ∨ ∀ x ∈ ["a"], x = (initialDetState "a").currentId) ∧
    (tick defaultSettings ["a"] 0 1 (some [10]) 13000
        { initialDetState "a" with speechSecondsAcc := 29/5 }).1.currentId
      = (initialDetState "a").currentId := by
  constructor
  · right
    intro x hx
    simpa [initialDetState] using hx
  · exact tick_no_switch_on_degenerate_fallbacks defaultSettings ["a"] 0 1
      (some [10]) 13000 { initialDetState "a" with speechSecondsAcc := 29/5 }
      (Or.inr (by intro x hx; simpa [initialDetState] using hx))

/-- Claim C9: a tick that satisfies the trigger condition but whose
rotation yields `none` or the current station still records
`lastSwitchTimestamp = now` and resets the accumulator to 0, starting a
full cooldown period with no station switch. -/
theorem tick_fire_without_switch_starts_cooldown
    (settings : TalkKillerSettings) (fallbacks : List String) (a b : ℕ)
    (data : List ℕ) (now : ℤ) (st : DetState)
    (hfire : (tick settings fallbacks a b (some data) now st).2 = true)
    (hrot : nextFallback fallbacks st.currentId = none ∨
        nextFallback fallbacks st.currentId = some st.currentId) :
    (tick settings fallbacks a b (some data) now st).1.lastSwitch = now ∧
    (tick settings fallbacks a b (some data) now st).1.speechSecondsAcc = 0 ∧
    (tick settings fallbacks a b (some data) now st).1.currentId = st.currentId := by
  have hswitch : triggerAutoSwitch fallbacks st.currentId = st.currentId := by
    unfold triggerAutoSwitch
    rcases hrot with h | h <;> rw [h]
    exact ite_self _
  simp only [tick] at hfire ⊢
  split
  · simp [hswitch]
  · rename_i hncond
    rw [if_neg hncond] at hfire
    exact absurd hfire (by simp)

/-- Witness for `tick_fire_without_switch_starts_cooldown`: a qualifying
tick over an empty fallback list records the switch time and clears the
accumulator. -/
theorem tick_fire_without_switch_starts_cooldown_witness :
    (tick defaultSettings [] 0 1 (some [10]) 13000
        { initialDetState "a" with speechSecondsAcc := 29/5 }).2 = true ∧
    ((tick defaultSettings [] 0 1 (some [10]) 13000
        { initialDetState "a" with speechSecondsAcc := 29/5 }).1.lastSwitch = 13000 ∧
     (tick defaultSettings [] 0 1 (some [10]) 13000
        { initialDetState "a" with speechSecondsAcc := 29/5 }).1.speechSecondsAcc = 0 ∧
     (tick defaultSettings [] 0 1 (some [10]) 13000
        { initialDetState "a" with speechSecondsAcc := 29/5 }).1.currentId
       = (initialDetState "a").currentId) := by
  have hfire : (tick defaultSettings [] 0 1 (some [10]) 13000
      { initialDetState "a" with speechSecondsAcc := 29/5 }).2 = true := by
    norm_num [tick, scoreOf, sliceSum, hysteresisNext, defaultSettings, initialDetState]
  exact ⟨hfire,
    tick_fire_without_switch_starts_cooldown defaultSettings [] 0 1 [10] 13000
      { initialDetState "a" with speechSecondsAcc := 29/5 } hfire (Or.inl rfl)⟩

/-- Claim C1: a tick fires a switch request iff the updated accumulation
has reached `speechSeconds` and `now - lastSwitchTimestamp` has reached
`cooldownSeconds * 1000`; on firing it records `lastSwitchTimestamp =
now` and resets the accumulator to 0 (the rotation result never touches
them).  With cooldown 12 s and the last trigger at t = 0, a qualifying
accumulation completing at 5000 ms does not fire and one completing at
13000 ms does. -/
theorem failover_trigger_contract :
    (∀ (settings : TalkKillerSettings) (fallbacks : List String) (a b : ℕ)
        (data : List ℕ) (now : ℤ) (st : DetState),
      (tick settings fallbacks a b (some data) now st).2 = true ↔
        (settings.speechSeconds ≤
            hysteresisNext settings.sensitivity (scoreOf data a b) st.speechSecondsAcc ∧
          settings.cooldownSeconds * 1000 ≤ (now : ℚ) - (st.lastSwitch : ℚ))) ∧
    (∀ (settings : TalkKillerSettings) (fallbacks : List String) (a b : ℕ)
        (data : List ℕ) (now : ℤ) (st : DetState),
      (tick settings fallbacks a b (some data) now st).2 = true →
        (tick settings fallbacks a b (some data) now st).1.lastSwitch = now ∧
        (tick settings fallbacks a b (some data) now st).1.speechSecondsAcc = 0) ∧
    (tick ⟨true, 6, 3/5, 12⟩ ["a", "b"] 0 1 (some [10]) 5000
        { initialDetState "a" with speechSecondsAcc := 29/5 }).2 = false ∧
    (tick ⟨true, 6, 3/5, 12⟩ ["a", "b"] 0 1 (some [10]) 13000
        { initialDetState "a" with speechSecondsAcc := 29/5 }).2 = true := by
  refine ⟨?_, ?_, ?_, ?_⟩
  · intro settings fallbacks a b data now st
    simp only [tick]
    split
    · rename_i hcond
      simpa using hcond
    · rename_i hncond
      simpa using hncond
  · intro settings fallbacks a b data now st hfire
    simp only [tick] at hfire ⊢
    split
    · simp
    · rename_i hncond
      rw [if_neg hncond] at hfire
      exact absurd hfire (by simp)
  · norm_num [tick, scoreOf, sliceSum, hysteresisNext, initialDetState]
  · norm_num [tick, scoreOf, sliceSum, hysteresisNext, initialDetState]

/-- Witness for `failover_trigger_contract`: the firing tick at 13000 ms
records the switch time and clears the accumulator. -/
theorem failover_trigger_contract_witness :
    (tick ⟨true, 6, 3/5, 12⟩ ["a", "b"] 0 1 (some [10]) 13000
        { initialDetState "a" with speechSecondsAcc := 29/5 }).2 = true ∧
    ((tick ⟨true, 6, 3/5, 12⟩ ["a", "b"] 0 1 (some [10]) 13000
        { initialDetState "a" with speechSecondsAcc := 29/5 }).1.lastSwitch = 13000 ∧
      (tick ⟨true, 6, 3/5, 12⟩ ["a", "b"] 0 1 (some [10]) 13000
        { initialDetState "a" with speechSecondsAcc := 29/5 }).1.speechSecondsAcc = 0) := by
  have hfire : (tick ⟨true, 6, 3/5, 12⟩ ["a", "b"] 0 1 (some [10]) 13000
      { initialDetState "a" with speechSecondsAcc := 29/5 }).2 = true := by
    norm_num [tick, scoreOf, sliceSum, hysteresisNext, initialDetState]
  exact ⟨hfire, failover_trigger_contract.2.1 ⟨true, 6, 3/5, 12⟩ ["a", "b"] 0 1 [10]
    13000 { initialDetState "a" with speechSecondsAcc := 29/5 } hfire⟩

/-- Claim C2: a tick classifies the sample as speech iff the score is at
least `sensitivity`; the hysteresis update adds exactly 0.2 s on a speech
tick and zeroes the accumulator on a non-speech tick; with
`speechSeconds = 6`, five consecutive speech ticks reach 1.0 s without
triggering, and a non-speech tick resets the accumulator regardless of
its prior value. -/
theorem hysteresis_tracker_contract :
    (∀ (settings : TalkKillerSettings) (fallbacks : List String) (a b : ℕ)
        (data : List ℕ) (now : ℤ) (st : DetState),
      (tick settings fallbacks a b (some data) now st).1.speechLabel = "Speech-ish" ↔
        settings.sensitivity ≤ scoreOf data a b) ∧
    (∀ (settings : TalkKillerSettings) (fallbacks : List String) (a b : ℕ)
        (data : List ℕ) (now : ℤ) (st : DetState),
      settings.sensitivity ≤ scoreOf data a b →
      (tick settings fallbacks a b (some data) now st).2 = false →
      (tick settings fallbacks a b (some data) now st).1.speechSecondsAcc
        = st.speechSecondsAcc + 1/5) ∧
    (∀ (settings : TalkKillerSettings) (fallbacks : List String) (a b : ℕ)
        (data : List ℕ) (now : ℤ) (st : DetState),
      scoreOf data a b < settings.sensitivity →
      (tick settings fallbacks a b (some data) now st).1.speechSecondsAcc = 0) ∧
    (runTicks defaultSettings [] 0 1
        [(some [10], 0), (some [10], 0), (some [10], 0), (some [10], 0), (some [10], 0)]
        (initialDetState "a")).1.speechSecondsAcc = 1 ∧
    (runTicks defaultSettings [] 0 1
        [(some [10], 0), (some [10], 0), (some [10], 0), (some [10], 0), (some [10], 0)]
        (initialDetState "a")).2 = false ∧
    (∀ prior : ℚ,
      (tick defaultSettings [] 0 0 (some [10]) 0
          { initialDetState "a" with speechSecondsAcc := prior }).1.speechSecondsAcc = 0) := by
  refine ⟨?_, ?_, fun settings fallbacks a b data now st =>
    tick_reset_on_nonspeech settings fallbacks a b data now st, ?_, ?_, ?_⟩
  · intro settings fallbacks a b data now st
    by_cases hs : settings.sensitivity ≤ scoreOf data a b
    · simp only [tick]
      split
      · simp [if_pos hs, hs]
      · simp [if_pos hs, hs]
    · simp only [tick]
      split
      · simp only [if_neg hs]
        constructor
        · intro h
          exact absurd h (by decide)
        · intro h
          exact absurd h hs
      · simp only [if_neg hs]
        constructor
        · intro h
          exact absurd h (by decide)
        · intro h
          exact absurd h hs
  · intro settings fallbacks a b data now st hsp hnf
    simp only [tick] at hnf ⊢
    split
    · rename_i hcond
      rw [if_pos hcond] at hnf
      exact absurd hnf (by simp)
    · simp [hysteresisNext, if_pos hsp]
  · norm_num [runTicks, tick, scoreOf, sliceSum, hysteresisNext, defaultSettings,
      initialDetState]
  · norm_num [runTicks, tick, scoreOf, sliceSum, hysteresisNext, defaultSettings,
      initialDetState]
  · intro prior
    exact tick_reset_on_nonspeech defaultSettings [] 0 0 [10] 0
      { initialDetState "a" with speechSecondsAcc := prior }
      (by norm_num [scoreOf, sliceSum, defaultSettings])

/-- Witness for `hysteresis_tracker_contract`: one speech tick from the
fresh state adds exactly 0.2 s to the accumulator. -/
theorem hysteresis_tracker_contract_witness :
    defaultSettings.sensitivity ≤ scoreOf [10] 0 1 ∧
    (tick defaultSettings [] 0 1 (some [10]) 0 (initialDetState "a")).2 = false ∧
    (tick defaultSettings [] 0 1 (some [10]) 0 (initialDetState "a")).1.speechSecondsAcc
      = (initialDetState "a").speechSecondsAcc + 1/5 := by
  have hs : defaultSettings.sensitivity ≤ scoreOf [10] 0 1 := by
    norm_num [scoreOf, sliceSum, defaultSettings]
  have hnf : (tick defaultSettings [] 0 1 (some [10]) 0 (initialDetState "a")).2 = false := by
    norm_num [tick, scoreOf, sliceSum, hysteresisNext, defaultSettings, initialDetState]
  exact ⟨hs, hnf, hysteresis_tracker_contract.2.1 defaultSettings [] 0 1 [10] 0
    (initialDetState "a") hs hnf⟩

/-- Claim C10: `lastSwitchRef` starts at 0, so with any in-range cooldown
(5–60 s) the first tick of a session whose accumulation reaches
`speechSeconds` passes the cooldown check and fires: `Date.now()` in any
real session is at least 60000 ms past the epoch, which dominates
`cooldownSeconds * 1000`. -/
theorem first_trigger_never_blocked_by_cooldown :
    (∀ cid, (initialDetState cid).lastSwitch = 0) ∧
    (∀ (settings : TalkKillerSettings) (fallbacks : List String) (a b : ℕ)
        (data : List ℕ) (now : ℤ) (st : DetState),
      st.lastSwitch = 0 →
      5 ≤ settings.cooldownSeconds → settings.cooldownSeconds ≤ 60 →
      60000 ≤ now →
      settings.speechSeconds ≤
        hysteresisNext settings.sensitivity (scoreOf data a b) st.speechSecondsAcc →
      (tick settings fallbacks a b (some data) now st).2 = true) := by
  refine ⟨fun cid => rfl, ?_⟩
  intro settings fallbacks a b data now st hinit _ hcool hnow hacc
  have hcd : settings.cooldownSeconds * 1000 ≤ (now : ℚ) - (st.lastSwitch : ℚ) := by
    rw [hinit]
    have h1 : settings.cooldownSeconds * 1000 ≤ 60000 := by linarith
    have h2 : (60000 : ℚ) ≤ (now : ℚ) := by exact_mod_cast hnow
    push_cast
    linarith
  simp only [tick]
  rw [if_pos ⟨hacc, hcd⟩]

/-- Witness for `first_trigger_never_blocked_by_cooldown`: a fresh
session state with default settings fires on the tick at which the
accumulator reaches 6 s. -/
theorem first_trigger_never_blocked_by_cooldown_witness :
    ((initialDetState "a").lastSwitch = 0 ∧
     5 ≤ defaultSettings.cooldownSeconds ∧ defaultSettings.cooldownSeconds ≤ 60 ∧
     (60000 : ℤ) ≤ 1700000000000 ∧
     defaultSettings.speechSeconds ≤
       hysteresisNext defaultSettings.sensitivity (scoreOf [10] 0 1) (29/5)) ∧
    (tick defaultSettings [] 0 1 (some [10]) 1700000000000
        { initialDetState "a" with speechSecondsAcc := 29/5 }).2 = true := by
  refine ⟨⟨rfl, by norm_num [defaultSettings], by norm_num [defaultSettings], by norm_num,
      by norm_num [defaultSettings, hysteresisNext, scoreOf, sliceSum]⟩, ?_⟩
  exact first_trigger_never_blocked_by_cooldown.2 defaultSettings [] 0 1 [10]
    1700000000000 { initialDetState "a" with speechSecondsAcc := 29/5 }
    rfl (by norm_num [defaultSettings]) (by norm_num [defaultSettings]) (by norm_num)
    (by norm_num [defaultSettings, hysteresisNext, scoreOf, sliceSum, initialDetState])

/-- Counterexample to claim C5: a detection-loop restart (here caused by
a sensitivity change while 1.0 s of speech is accumulated) does not
reset `accumulatedSeconds` — the effect cleanup only clears the tick
interval, and `speechSecondsRef` persists across effect re-runs. -/
theorem loop_restart_keeps_accumulation_counterexample :
    (detectionRestart ⟨⟨true, 6, 1/2, 12⟩, true, "a", []⟩ false
        { intervalActive := true, analysisBlocked := false, speechSecondsAcc := 1,
          lastSwitch := 0, currentId := "a", speechScore := 0,
          speechLabel := "Music" }).1.speechSecondsAcc ≠ 0 := by
  norm_num [detectionRestart, detectionEffectBody, detectionCleanup]

/-- Claim C5 amended: a detection-loop restart (station change,
play/pause change, or settings change) cancels and rebuilds the tick
interval but preserves `accumulatedSeconds` (and `lastSwitchTimestamp`);
the accumulator is reset only on a non-speech sample (and when the
trigger fires). -/
theorem loop_restart_preserves_accumulation :
    (∀ (deps : DetectionDeps) (setupFails : Bool) (st : DetState),
      (detectionRestart deps setupFails st).1.speechSecondsAcc = st.speechSecondsAcc ∧
      (detectionRestart deps setupFails st).1.lastSwitch = st.lastSwitch) ∧
    (∀ (settings : TalkKillerSettings) (fallbacks : List String) (a b : ℕ)
        (data : List ℕ) (now : ℤ) (st : DetState),
      scoreOf data a b < settings.sensitivity →
      (tick settings fallbacks a b (some data) now st).1.speechSecondsAcc = 0) := by
  constructor
  · intro deps setupFails st
    simp only [detectionRestart, detectionEffectBody, detectionCleanup]
    split
    · exact ⟨rfl, rfl⟩
    · split
      · exact ⟨rfl, rfl⟩
      · exact ⟨rfl, rfl⟩
  · exact fun settings fallbacks a b data now st =>
      tick_reset_on_nonspeech settings fallbacks a b data now st

/-- Witness for `loop_restart_preserves_accumulation`: a non-speech tick
from 3 s of accumulation resets the accumulator to 0. -/
theorem loop_restart_preserves_accumulation_witness :
    scoreOf [10] 0 0 < defaultSettings.sensitivity ∧
    (tick defaultSettings [] 0 0 (some [10]) 7
        { initialDetState "a" with speechSecondsAcc := 3 }).1.speechSecondsAcc = 0 := by
  have hs : scoreOf [10] 0 0 < defaultSettings.sensitivity := by
    norm_num [scoreOf, sliceSum, defaultSettings]
  exact ⟨hs, loop_restart_preserves_accumulation.2 defaultSettings [] 0 0 [10] 7
    { initialDetState "a" with speechSecondsAcc := 3 } hs⟩

/-- Counterexample to claim C7: after an AnalysisSetupFailure for
station "x" sets `analysisBlocked = true` and leaves no interval
running, a sensitivity-only settings change — the station unchanged —
re-runs the detection effect, which retries setup and restarts the
sampling interval: the failure is not durable until the next station
change, because `analysisBlocked` is never consulted by the effect. -/
theorem analysis_failure_retry_counterexample :
    (detectionRestart ⟨⟨true, 6, 3/5, 12⟩, true, "x", []⟩ true
        (initialDetState "x")).1.analysisBlocked = true ∧
    (detectionRestart ⟨⟨true, 6, 3/5, 12⟩, true, "x", []⟩ true
        (initialDetState "x")).1.intervalActive = false ∧
    (⟨⟨true, 6, 1/2, 12⟩, true, "x", []⟩ : DetectionDeps).currentId
      = (⟨⟨true, 6, 3/5, 12⟩, true, "x", []⟩ : DetectionDeps).currentId ∧
    (sessionStep ⟨⟨true, 6, 3/5, 12⟩, true, "x", []⟩
        ⟨⟨true, 6, 1/2, 12⟩, true, "x", []⟩ false
        (detectionRestart ⟨⟨true, 6, 3/5, 12⟩, true, "x", []⟩ true
          (initialDetState "x")).1).2 = true ∧
    (sessionStep ⟨⟨true, 6, 3/5, 12⟩, true, "x", []⟩
        ⟨⟨true, 6, 1/2, 12⟩, true, "x", []⟩ false
        (detectionRestart ⟨⟨true, 6, 3/5, 12⟩, true, "x", []⟩ true
          (initialDetState "x")).1).1.intervalActive = true := by
  norm_num [sessionStep, detectionRestart, detectionEffectBody, detectionCleanup,
    initialDetState]

/-- Claim C7 amended: an analysis failure (setup or read) sets
`analysisBlocked` and stops sampling, and no retry happens while the
detection effect's dependencies are unchanged; but a change to any
dependency (settings, play/pause, fallback list — not only a station
change) re-runs the effect, which retries setup regardless of
`analysisBlocked`. -/
theorem analysis_failure_station_scoped :
    (∀ (deps : DetectionDeps) (st : DetState),
      deps.settings.enabled = true → deps.isPlaying = true →
      (detectionRestart deps true st).1.analysisBlocked = true ∧
      (detectionRestart deps true st).1.intervalActive = false) ∧
    (∀ (settings : TalkKillerSettings) (fallbacks : List String) (a b : ℕ)
        (now : ℤ) (st : DetState),
      (tick settings fallbacks a b none now st).1.analysisBlocked = true ∧
      (tick settings fallbacks a b none now st).1.intervalActive = false) ∧
    (∀ (deps : DetectionDeps) (setupFails : Bool) (st : DetState),
      sessionStep deps deps setupFails st = (st, false)) ∧
    (∀ (d0 d1 : DetectionDeps) (st : DetState),
      d0 ≠ d1 → d1.settings.enabled = true → d1.isPlaying = true →
      (sessionStep d0 d1 false st).2 = true ∧
      (sessionStep d0 d1 false st).1.intervalActive = true) := by
  refine ⟨?_, ?_, ?_, ?_⟩
  · intro deps st hen hpl
    simp [detectionRestart, detectionEffectBody, detectionCleanup, hen, hpl]
  · intro settings fallbacks a b now st
    exact ⟨rfl, rfl⟩
  · intro deps setupFails st
    simp [sessionStep]
  · intro d0 d1 st hne hen hpl
    simp [sessionStep, hne, detectionRestart, detectionEffectBody, detectionCleanup,
      hen, hpl]

/-- Witness for `analysis_failure_station_scoped`: a dependency change
(fallback list gains an entry) re-runs the effect and retries setup. -/
theorem analysis_failure_station_scoped_witness :
    ((⟨⟨true, 6, 3/5, 12⟩, true, "x", []⟩ : DetectionDeps)
        ≠ (⟨⟨true, 6, 3/5, 12⟩, true, "x", ["y"]⟩ : DetectionDeps)) ∧
    ((⟨⟨true, 6, 3/5, 12⟩, true, "x", ["y"]⟩ : DetectionDeps).settings.enabled = true) ∧
    ((⟨⟨true, 6, 3/5, 12⟩, true, "x", ["y"]⟩ : DetectionDeps).isPlaying = true) ∧
    ((sessionStep ⟨⟨true, 6, 3/5, 12⟩, true, "x", []⟩
        ⟨⟨true, 6, 3/5, 12⟩, true, "x", ["y"]⟩ false
        { initialDetState "x" with analysisBlocked := true }).2 = true ∧
      (sessionStep ⟨⟨true, 6, 3/5, 12⟩, true, "x", []⟩
        ⟨⟨true, 6, 3/5, 12⟩, true, "x", ["y"]⟩ false
        { initialDetState "x" with analysisBlocked := true }).1.intervalActive = true) := by
  have hne : (⟨⟨true, 6, 3/5, 12⟩, true, "x", []⟩ : DetectionDeps)
      ≠ (⟨⟨true, 6, 3/5, 12⟩, true, "x", ["y"]⟩ : DetectionDeps) := by
    simp
  exact ⟨hne, rfl, rfl, analysis_failure_station_scoped.2.2.2
    ⟨⟨true, 6, 3/5, 12⟩, true, "x", []⟩ ⟨⟨true, 6, 3/5, 12⟩, true, "x", ["y"]⟩
    { initialDetState "x" with analysisBlocked := true } hne rfl rfl⟩

end RavenRadio
